import Mathlib

/-!
Verification of the motion-control core of the 3AmmaRtheRoboticArm repository.

The development shallowly embeds the Python sources:
* `ci_*`  : `src/commandImproved.py` (`RoboticArmController`)
* `cg_*`  : `src/controller&Gui.py` (`RoboticArmController`)
* `tp_*`  : `src/test.py` (`RoboticArmController`)
* `es_*`  : `src/devlopingsystem/enhanceSens.py` (`RoboticArmController`)

Pulse widths that the Python code keeps as integers are modelled as `ℤ`;
quantities the Python code keeps as floats (velocities, smoothed positions,
time stamps, intervals) are modelled as `ℚ` (exact real arithmetic).
Hardware writes `pi.set_servo_pulsewidth(pin, pw)` are recorded as pairs
`(pin, pw)` in the order the code issues them.
-/

/-- Python `int(q)` on a (finite) float: truncation toward zero. -/
def pyInt (q : ℚ) : ℤ := if q < 0 then ⌈q⌉ else ⌊q⌋

/-- Python `max(lo, min(x, hi))`, the clamp idiom used throughout the sources. -/
def clampZ (lo hi x : ℤ) : ℤ := max lo (min x hi)

/-- Python `math.copysign x y` (for rationals; `y = 0` counts as positive,
matching `math.copysign` on the float `+0.0`). -/
def copySign (x y : ℚ) : ℚ := if y < 0 then -|x| else |x|

/-! ## `src/commandImproved.py` -/

/-- The six servos, in the (insertion) order of the `SERVO_PINS` dict of
`commandImproved.py`; iteration over `self.SERVO_PINS.items()` uses this
order. -/
inductive CiServo
  | BASE | SHOULDER | ELBOW | WRIST_PITCH | WRIST_ROLL | GRIPPER
deriving DecidableEq, Repr

/-- `SERVO_PINS` of `commandImproved.py` (lines 14-21). -/
def ci_servo_pins : CiServo → ℕ
  | .BASE => 24
  | .SHOULDER => 23
  | .ELBOW => 22
  | .WRIST_PITCH => 27
  | .WRIST_ROLL => 18
  | .GRIPPER => 17

/-- `SERVO_LIMITS` of `commandImproved.py` (lines 24-31): `(min_pw, max_pw)`. -/
def ci_servo_limits : CiServo → ℤ × ℤ
  | .BASE => (600, 2400)
  | .SHOULDER => (700, 2300)
  | .ELBOW => (600, 2400)
  | .WRIST_PITCH => (600, 2400)
  | .WRIST_ROLL => (600, 2400)
  | .GRIPPER => (1000, 2000)

/-- Dict iteration order of `SERVO_PINS.items()` in `commandImproved.py`. -/
def ci_servo_list : List CiServo :=
  [.BASE, .SHOULDER, .ELBOW, .WRIST_PITCH, .WRIST_ROLL, .GRIPPER]

/-- `DEFAULT_STEP = 10` (line 34). -/
def ci_DEFAULT_STEP : ℤ := 10

/-- `DEFAULT_INTERVAL = 30` ms (line 35). -/
def ci_DEFAULT_INTERVAL : ℚ := 30

/-- A recorded hardware write `pi.set_servo_pulsewidth(pin, pw)`. -/
abbrev CiWrite := ℕ × ℤ

/-- Jog direction, i.e. the second word of a button id string such as
`"BASE CCW"` (the sources build ids as `f"{name} CCW"` / `f"{name} CW"`). -/
inductive CiDir
  | CCW | CW
deriving DecidableEq, Repr

/-- A button id `f"{name} {direction}"`, parsed: `button_id.split()` yields
the servo name and the direction. -/
abbrev CiButton := CiServo × CiDir

/-- The mutable controller state that the emergency-stop / jog paths of
`commandImproved.py` touch: `self.current_pw` (dict servo-name → μs) and
`self.button_states` (dict button-id → bool). -/
structure CiState where
  current_pw : CiServo → ℤ
  button_states : List (CiButton × Bool)

/-- Python dict assignment `d[k] = v` on an association list. -/
def dictSet (l : List (CiButton × Bool)) (k : CiButton) (v : Bool) :
    List (CiButton × Bool) :=
  if k ∈ l.map Prod.fst then
    l.map (fun p => if p.1 = k then (k, v) else p)
  else
    l ++ [(k, v)]

/-- `emergency_stop` (lines 469-485): clears `button_states`, then writes
pulse width `0` to every servo pin in dict order (with a `time.sleep(0.05)`
between writes, which we do not model); it does not touch `current_pw`.
The `root.after(1000, self.reactivate_servos)` call schedules
`ci_reactivate_servos` to run after the stop pass. -/
def ci_emergency_stop (s : CiState) : CiState × List CiWrite :=
  ({ s with button_states := [] },
    ci_servo_list.map (fun j => (ci_servo_pins j, 0)))

/-- `reactivate_servos` (lines 487-499): writes each servo's stored
`self.current_pw[name]` to its pin, in the same dict order, leaving
`current_pw` unchanged. -/
def ci_reactivate_servos (s : CiState) : CiState × List CiWrite :=
  (s, ci_servo_list.map (fun j => (ci_servo_pins j, s.current_pw j)))

/-- One whole emergency-stop/reactivation cycle: the writes of
`emergency_stop` followed (after the 1000 ms `root.after` delay) by the
writes of `reactivate_servos` on the state the stop pass left behind. -/
def ci_emergency_cycle (s : CiState) : CiState × List CiWrite :=
  let p1 := ci_emergency_stop s
  let p2 := ci_reactivate_servos p1.1
  (p2.1, p1.2 ++ p2.2)

/-- The load-heuristic fields of `RoboticArmController` read and written by
`_check_movement_frequency` (lines 141-160), plus a counter of emitted
instability notifications (the `root.after(... "Power: Unstable" ...)` /
`logger.warning` pair at lines 153-155). -/
structure CiLoadState where
  last_movement_time : ℚ
  movement_count : ℕ
  power_stable : Bool
  notices : ℕ
deriving DecidableEq, Repr

/-- `_check_movement_frequency` (lines 141-160), called with the current
`time.time()` value. `time_diff < 0.1` increments `movement_count`; once
`movement_count > 20` while `power_stable`, flips `power_stable` to `False`
and emits a notification. `time_diff >= 0.1` only resets `movement_count`
to `0`; no branch ever sets `power_stable` back to `True`. -/
def ci_check_movement_frequency (s : CiLoadState) (now : ℚ) : CiLoadState :=
  let time_diff := now - s.last_movement_time
  if time_diff < 1/10 then
    let c := s.movement_count + 1
    if 20 < c ∧ s.power_stable then
      { last_movement_time := now, movement_count := c,
        power_stable := false, notices := s.notices + 1 }
    else
      { s with last_movement_time := now, movement_count := c }
  else
    { s with last_movement_time := now, movement_count := 0 }

/-- A sequence of dispatched commands, given by their `time.time()` stamps,
fed through `_check_movement_frequency` in order. -/
def ci_run_load (s : CiLoadState) (times : List ℚ) : CiLoadState :=
  times.foldl ci_check_movement_frequency s

/-- `button_release` (lines 525-548): if the button id is a key of
`button_states`, it removes the key and re-issues the servo's stored
`current_pw` to its pin; otherwise it does nothing. -/
def ci_button_release (s : CiState) (b : CiButton) : CiState × List CiWrite :=
  if b ∈ s.button_states.map Prod.fst then
    ({ s with button_states := s.button_states.filter (fun p => ¬(p.1 = b)) },
      [(ci_servo_pins b.1, s.current_pw b.1)])
  else
    (s, [])

/-- One intermediate value of the preset ramp of `_move_to_preset_thread`
(lines 424-467): `increment = (target - current)/50` is computed from the
raw target, and step `k` (`k = 0..49`) writes
`max(min_pw, min(int(current + increment*(k+1)), max_pw))`. -/
def ci_preset_step (min_pw max_pw current target : ℤ) (k : ℕ) : ℤ :=
  let increment : ℚ := ((target : ℚ) - (current : ℚ)) / 50
  clampZ min_pw max_pw (pyInt ((current : ℚ) + increment * ((k : ℚ) + 1)))

/-- The per-tick sleep interval of `move_servo_continuously` (line 606):
`DEFAULT_INTERVAL * (1.5 if not power_stable else 1.0)` milliseconds.
No speed factor exists in `commandImproved.py`. -/
def ci_tick_interval (power_stable : Bool) : ℚ :=
  ci_DEFAULT_INTERVAL * (if power_stable then 1 else 3/2)

/-- Reading `self.attr` on an attribute slot: a slot never assigned holds
`none` and reading it raises `AttributeError`. -/
def readAttr {α : Type} (name : String) : Option α → Except String α
  | some v => .ok v
  | none => .error ("AttributeError: " ++ name)

/-- The three load-heuristic attributes of `RoboticArmController` in
`commandImproved.py` as attribute slots. `__init__` (lines 42-70) assigns
`root`, `pi`, `current_pw`, `movement_lock` and `button_states` but none of
`last_movement_time`, `movement_count`, `power_stable`; nothing else runs
before the first movement. -/
structure CiLoadAttrs where
  last_movement_time : Option ℚ
  movement_count : Option ℕ
  power_stable : Option Bool
deriving Repr

/-- The load-heuristic attribute slots as `__init__` leaves them: none of
the three is ever initialized. -/
def ci_init_load_attrs : CiLoadAttrs := ⟨none, none, none⟩

/-- `_check_movement_frequency` with explicit attribute access, in source
order: line 144 reads `self.last_movement_time` first; in the rapid branch
line 148 reads `self.movement_count`, and line 151 reads
`self.power_stable` only if `movement_count > 20` (Python `and`
short-circuits). -/
def ci_check_movement_frequency_attr (a : CiLoadAttrs) (now : ℚ) :
    Except String CiLoadAttrs := do
  let last ← readAttr "last_movement_time" a.last_movement_time
  let time_diff := now - last
  if time_diff < 1/10 then
    let c0 ← readAttr "movement_count" a.movement_count
    let c := c0 + 1
    let flip ← if 20 < c then readAttr "power_stable" a.power_stable
               else pure false
    if flip then
      pure { last_movement_time := some now, movement_count := some c,
             power_stable := some false }
    else
      pure { a with last_movement_time := some now, movement_count := some c }
  else
    pure { a with last_movement_time := some now, movement_count := some 0 }

/-- The attribute accesses of one iteration of `move_servo_continuously`
(lines 563-607): when the position changed it calls
`_check_movement_frequency` (line 603); in every iteration line 606 then
reads `self.power_stable` to compute the sleep interval. -/
def ci_jog_tick_attr (a : CiLoadAttrs) (changed : Bool) (now : ℚ) :
    Except String CiLoadAttrs := do
  let a' ← if changed then ci_check_movement_frequency_attr a now else pure a
  let _ ← readAttr "power_stable" a'.power_stable
  pure a'

/-! ## `src/controller&Gui.py` -/

/-- The six servos, in the order of the `SERVO_PINS` dict of
`controller&Gui.py`. -/
inductive CgServo
  | BASE | SHOULDER | ELBOW | WRIST_PITCH | WRIST_ROLL | GRIPPER
deriving DecidableEq, Repr

/-- `SERVO_PINS` of `controller&Gui.py` (lines 15-22). -/
def cg_servo_pins : CgServo → ℕ
  | .BASE => 17
  | .SHOULDER => 18
  | .ELBOW => 19
  | .WRIST_PITCH => 20
  | .WRIST_ROLL => 21
  | .GRIPPER => 22

/-- `SERVO_LIMITS` of `controller&Gui.py` (lines 25-32). -/
def cg_servo_limits : CgServo → ℤ × ℤ
  | .GRIPPER => (1000, 2000)
  | _ => (500, 2500)

/-- Dict iteration order of `SERVO_PINS.items()` in `controller&Gui.py`. -/
def cg_servo_list : List CgServo :=
  [.BASE, .SHOULDER, .ELBOW, .WRIST_PITCH, .WRIST_ROLL, .GRIPPER]

/-- `DEFAULT_STEP = 20` μs (line 35). -/
def cg_DEFAULT_STEP : ℤ := 20

abbrev CgWrite := ℕ × ℤ

abbrev CgButton := CgServo × CiDir

/-- The emergency-stop phase of the controller, as the spec names it.
`controller&Gui.py` stores no such variable; the model carries it as a
ghost marker of where in the stop/reactivate cycle the system is
(`reactivating` meaning the `root.after(500, self.reactivate_servos)`
callback is still pending), so that one can ask how the command handlers
behave while it is set. No handler in the source reads any such state, and
accordingly no model function below inspects it except to set it. -/
inductive CgPhase
  | running | stopping | reactivating
deriving DecidableEq, Repr

/-- The controller state touched by the jog / preset / emergency-stop paths
of `controller&Gui.py`: `self.current_pw`, `self.button_states`, plus the
ghost stop phase. -/
structure CgState where
  current_pw : CgServo → ℤ
  button_states : List (CgButton × Bool)
  phase : CgPhase

/-- Python dict assignment `d[k] = v` for `button_states`. -/
def cgDictSet (l : List (CgButton × Bool)) (k : CgButton) (v : Bool) :
    List (CgButton × Bool) :=
  if k ∈ l.map Prod.fst then
    l.map (fun p => if p.1 = k then (k, v) else p)
  else
    l ++ [(k, v)]

/-- `emergency_stop` (lines 282-296): clears `button_states` and writes
pulse width `0` to every pin in dict order; `root.after(500, ...)` then
leaves the system in the cool-down window until `reactivate_servos` runs,
marked here by the ghost phase `reactivating`. -/
def cg_emergency_stop (s : CgState) : CgState × List CgWrite :=
  ({ s with button_states := [], phase := .reactivating },
    cg_servo_list.map (fun j => (cg_servo_pins j, 0)))

/-- `reactivate_servos` (lines 298-304): writes each servo's stored
`current_pw` in dict order and returns the system to normal operation. -/
def cg_reactivate_servos (s : CgState) : CgState × List CgWrite :=
  ({ s with phase := .running },
    cg_servo_list.map (fun j => (cg_servo_pins j, s.current_pw j)))

/-- One iteration of `move_servo_continuously` (lines 343-377): if the
button is still pressed, step `current_pw` by `DEFAULT_STEP` toward the
direction's extreme (clamped), and issue a hardware write when the value
changed. -/
def cg_move_step (s : CgState) (b : CgButton) : CgState × List CgWrite :=
  if (s.button_states.lookup b).getD false then
    let current := s.current_pw b.1
    let lim := cg_servo_limits b.1
    let new_pw := match b.2 with
      | .CCW => min (current + cg_DEFAULT_STEP) lim.2
      | .CW => max (current - cg_DEFAULT_STEP) lim.1
    if new_pw ≠ current then
      ({ s with current_pw := Function.update s.current_pw b.1 new_pw },
        [(cg_servo_pins b.1, new_pw)])
    else (s, [])
  else (s, [])

/-- `button_press` (lines 306-320): marks the button pressed and calls
`move_servo_continuously`, whose first iteration runs synchronously (the
following iterations are rescheduled through `root.after` and are not part
of the handler). It consults no stop state. -/
def cg_button_press (s : CgState) (b : CgButton) : CgState × List CgWrite :=
  cg_move_step { s with button_states := cgDictSet s.button_states b true } b

/-- One intermediate value of the preset ramp of `_move_to_preset_thread`
(lines 249-280) of `controller&Gui.py`: 50 fixed steps, increment computed
from the raw target, each written value clamped. -/
def cg_preset_step (j : CgServo) (current target : ℤ) (k : ℕ) : ℤ :=
  let lim := cg_servo_limits j
  let increment : ℚ := ((target : ℚ) - (current : ℚ)) / 50
  clampZ lim.1 lim.2 (pyInt ((current : ℚ) + increment * ((k : ℚ) + 1)))

/-- `move_to_preset` + `_move_to_preset_thread` (lines 239-280): clears
`button_states`, then for `step = 0..49` writes every servo's step value in
dict order; `current_pw` ends at the step-49 value. It consults no stop
state. -/
def cg_move_to_preset (s : CgState) (targets : CgServo → ℤ) :
    CgState × List CgWrite :=
  let final := fun j => cg_preset_step j (s.current_pw j) (targets j) 49
  ({ s with button_states := [], current_pw := final },
    (List.range 50).flatMap (fun k =>
      cg_servo_list.map (fun j =>
        (cg_servo_pins j, cg_preset_step j (s.current_pw j) (targets j) k))))

/-- The controller state as `__init__` (lines 38-65) builds it: every servo
at 1500 μs, no pressed buttons, normal operation. -/
def cg_init : CgState := ⟨fun _ => 1500, [], .running⟩

/-! ## `src/test.py` -/

/-- The six servos, in the order of the `SERVO_PINS` dict of `test.py`. -/
inductive TpServo
  | BASE | SHOULDER | ELBOW | WRIST_PITCH | WRIST_ROLL | GRIPPER
deriving DecidableEq, Repr

/-- `SERVO_LIMITS` of `test.py` (lines 18-25). -/
def tp_servo_limits : TpServo → ℤ × ℤ
  | .BASE => (600, 2400)
  | .SHOULDER => (800, 2200)
  | .ELBOW => (500, 2500)
  | .WRIST_PITCH => (500, 2500)
  | .WRIST_ROLL => (500, 2500)
  | .GRIPPER => (800, 2200)

/-- `SPEED_INTERVALS` of `test.py` (lines 38-45), in ms. -/
def tp_speed_intervals : TpServo → ℚ
  | .BASE => 30
  | .SHOULDER => 30
  | .ELBOW => 40
  | .WRIST_PITCH => 40
  | .WRIST_ROLL => 40
  | .GRIPPER => 30

/-- The target validation pass of `_move_to_preset_thread` in `test.py`
(lines 422-427): a target outside `[min_pw, max_pw]` is replaced by
`max(min_pw, min(target, max_pw))` before anything else happens. -/
def tp_adjusted_target (min_pw max_pw target : ℤ) : ℤ :=
  if target < min_pw ∨ max_pw < target then clampZ min_pw max_pw target
  else target

/-- The step count of `_move_to_preset_thread` in `test.py` (lines 435-445):
starting from 1, take the maximum over the servos of
`abs(target - current) // 10`, then cap at 100. `dists` lists the
per-servo distances of the (already adjusted) targets. -/
def tp_max_steps (dists : List ℤ) : ℕ :=
  min (dists.foldl (fun acc d => max acc (d.natAbs / 10)) 1) 100

/-- One intermediate value of the preset ramp of `_move_to_preset_thread`
in `test.py` (lines 447-460): the increment is computed from the adjusted
(clamped) target, and step `k` (`k = 0..max_steps-1`) writes
`max(min_pw, min(int(current + increment*(k+1)), max_pw))`. -/
def tp_preset_step (min_pw max_pw current target : ℤ) (max_steps : ℕ)
    (k : ℕ) : ℤ :=
  let t := tp_adjusted_target min_pw max_pw target
  let increment : ℚ := ((t : ℚ) - (current : ℚ)) / (max_steps : ℚ)
  clampZ min_pw max_pw (pyInt ((current : ℚ) + increment * ((k : ℚ) + 1)))

/-- The per-tick sleep interval of `move_servo_continuously` in `test.py`
(lines 582-585, 616): the servo's `SPEED_INTERVALS` entry divided by the
speed factor. No load multiplier exists in `test.py`. -/
def tp_effective_interval (j : TpServo) (speed_factor : ℚ) : ℚ :=
  tp_speed_intervals j / speed_factor

/-- The tick-period formula as §4.3 of the spec states it:
`base_interval * (1.5 if load unstable else 1.0) / speed_factor`.
(Spec-side definition, for comparison with the code-side intervals.) -/
def spec_tick_period (base_interval : ℚ) (unstable : Bool)
    (speed_factor : ℚ) : ℚ :=
  base_interval * (if unstable then 3/2 else 1) / speed_factor

/-! ## `src/devlopingsystem/enhanceSens.py` -/

/-- Per-servo travel limits, `SERVO_LIMITS` entries of `enhanceSens.py`. -/
structure EsCfg where
  min_pw : ℤ
  max_pw : ℤ
deriving DecidableEq, Repr

/-- The tunable settings read by `smooth_movement_loop`
(`self.settings`, defaults at lines 30-37). -/
structure EsSettings where
  step_size : ℚ
  acceleration : ℚ
  deceleration : ℚ
  smoothing : ℚ
deriving DecidableEq, Repr

/-- `DEFAULT_SETTINGS` of `enhanceSens.py` (lines 30-37): `STEP_SIZE = 15`,
`ACCELERATION = 0.2`, `DECELERATION = 0.3`, `SMOOTHING = 0.8`. -/
def es_default_settings : EsSettings := ⟨15, 1/5, 3/10, 4/5⟩

/-- The per-servo runtime fields of `enhanceSens.py`: `self.current_pw`,
`self.target_pw`, `self.velocities` entries (floats, modelled as `ℚ`). -/
structure EsState where
  current_pw : ℚ
  target_pw : ℚ
  velocity : ℚ
deriving DecidableEq, Repr

/-- The velocity update of `smooth_movement_loop` (lines 694-717): compute
the distance-scaled velocity cap, accelerate by `ACCELERATION * max_velocity`
toward the target while below the cap (capping the magnitude), decelerate by
`DECELERATION` when within twice the velocity of the target, and damp twice
as hard when the velocity opposes the target direction. -/
def es_velocity_update (s : EsSettings) (speed_factor diff velocity : ℚ) : ℚ :=
  let distance_factor := min 1 (|diff| / 100)
  let max_velocity := s.step_size * speed_factor * distance_factor
  let v1 :=
    if |velocity| < max_velocity then
      let va := velocity + copySign (s.acceleration * max_velocity) diff
      copySign (min |va| max_velocity) va
    else if |diff| < |velocity| * 2 then
      velocity * (1 - s.deceleration)
    else velocity
  if v1 * diff < 0 then v1 * (1 - s.deceleration * 2) else v1

/-- One pass of `smooth_movement_loop` (lines 675-749) for one servo.
`active` is `name in self.active_servos`. The pass is skipped for an
inactive servo already within 1 μs of its target; if `|diff| > 1` it
updates `velocity` (`es_velocity_update`), clamps the proposed position to
the servo's limits and blends it with the old position by the smoothing
factor; otherwise it zeroes `velocity` and, for an active servo, snaps
`current_pw` to the target. -/
def es_smooth_tick (cfg : EsCfg) (s : EsSettings) (speed_factor : ℚ)
    (active : Bool) (st : EsState) : EsState :=
  if active = false ∧ |st.target_pw - st.current_pw| < 1 then st
  else
    let diff := st.target_pw - st.current_pw
    if 1 < |diff| then
      let v2 := es_velocity_update s speed_factor diff st.velocity
      let proposed := st.current_pw + v2
      let new_position := max (cfg.min_pw : ℚ) (min proposed (cfg.max_pw : ℚ))
      { current_pw := st.current_pw * s.smoothing
          + new_position * (1 - s.smoothing),
        target_pw := st.target_pw,
        velocity := v2 }
    else
      { current_pw := if active then st.target_pw else st.current_pw,
        target_pw := st.target_pw,
        velocity := 0 }

/-- A run of the motion loop for one servo under a sequence of external
inputs: before each tick the input layer may assign a fresh `target_pw`
and the servo may be active or not. -/
def es_run (cfg : EsCfg) (s : EsSettings) (speed_factor : ℚ)
    (inputs : List (ℚ × Bool)) (st : EsState) : EsState :=
  inputs.foldl
    (fun acc p => es_smooth_tick cfg s speed_factor p.2
      { acc with target_pw := p.1 }) st

/-- `initialize_servos` (lines 131-157): `middle_pw = (min_pw + max_pw) // 2`
(Python floor division; the Lean `/` on `ℤ` agrees with it for the positive
divisor 2). -/
def es_middle (cfg : EsCfg) : ℤ := (cfg.min_pw + cfg.max_pw) / 2

/-- The per-servo state `initialize_servos` sets up:
`current_pw = target_pw = middle_pw`, `velocity = 0`. -/
def es_init (cfg : EsCfg) : EsState :=
  ⟨(es_middle cfg : ℚ), (es_middle cfg : ℚ), 0⟩

/-- The scenario joint of spec §8.7: limits `(600, 2400)`. -/
def c7_cfg : EsCfg := ⟨600, 2400⟩

/-- The scenario settings of spec §8.7: `step_size = 10`, remaining
settings at their `DEFAULT_SETTINGS` values, `speed_factor = 1`. -/
def c7_settings : EsSettings := ⟨10, 1/5, 3/10, 4/5⟩

/-- The scenario trajectory of spec §8.7: starting from
`current_pw = 1500`, `target_pw = 1800`, `velocity = 0`, the state after
`n` ticks of the velocity-eased loop with the servo active. -/
def c7_state (n : ℕ) : EsState :=
  Nat.iterate (es_smooth_tick c7_cfg c7_settings 1 true) n ⟨1500, 1800, 0⟩

/-- One tick of the §8.7 scenario loop. -/
def c7_tick : EsState → EsState := es_smooth_tick c7_cfg c7_settings 1 true


/-! ## `src/devlopingsystem/yes_but_no.py` -/

/-- `DEFAULT_SETTINGS` of `yes_but_no.py` (lines 12-23), the parameters
read by `smooth_elbow_movement` and `movement_loop`. -/
structure YbSettings where
  gravity_factor : ℚ
  extra_smoothing : ℚ
  gravity_ratio_factor : ℚ
  upward_boost : ℚ
  downward_reduction : ℚ
  step_size : ℚ
  smoothing : ℚ
  acceleration : ℚ
  deceleration : ℚ
deriving DecidableEq, Repr

/-- The default values of `DEFAULT_SETTINGS` (lines 12-23):
`GRAVITY_FACTOR = 0.3`, `EXTRA_SMOOTHING = 0.4`,
`GRAVITY_RATIO_FACTOR = 1.0`, `UPWARD_BOOST = 1.0`,
`DOWNWARD_REDUCTION = 0.5`, `STEP_SIZE = 15`, `SMOOTHING = 0.8`,
`ACCELERATION = 0.2`, `DECELERATION = 0.3`. -/
def yb_default_settings : YbSettings :=
  ⟨3/10, 2/5, 1, 1, 1/2, 15, 4/5, 1/5, 3/10⟩

/-- `ELBOW_LIMITS = (500, 2500)` (line 26). -/
def yb_ELBOW_LIMITS : ℤ × ℤ := (500, 2500)

/-- `smooth_elbow_movement` (lines 444-507): gravity-compensated position
update for the elbow. The position ratio scales the asymmetric gravity
assist (negative boost when moving up against gravity, reduced positive
assist when moving down with it); the gravity-adjusted velocity proposes a
new position, which is blended with the old one by
`min(0.95, SMOOTHING + EXTRA_SMOOTHING)` and finally clamped to
`ELBOW_LIMITS`. -/
def yb_smooth_elbow_movement (set : YbSettings)
    (current target velocity : ℚ) : ℚ :=
  let diff := target - current
  let min_pw : ℚ := (yb_ELBOW_LIMITS.1 : ℤ)
  let max_pw : ℚ := (yb_ELBOW_LIMITS.2 : ℤ)
  let position_ratio := (current - min_pw) / (max_pw - min_pw)
  let adjusted_ratio := position_ratio * set.gravity_ratio_factor
  let gravity_assist :=
    if diff < 0 then
      -set.gravity_factor * adjusted_ratio * set.step_size * set.upward_boost
    else
      set.gravity_factor * (1 - adjusted_ratio) * set.step_size
        * set.downward_reduction
  let adjusted_velocity := velocity + gravity_assist
  let new_position := current + adjusted_velocity
  let effective_smoothing := min (19/20) (set.smoothing + set.extra_smoothing)
  let smoothed_position := current * effective_smoothing
      + new_position * (1 - effective_smoothing)
  max min_pw (min smoothed_position max_pw)

/-- One pass of `movement_loop` (lines 509-610). An inactive pass changes
nothing; if `|diff| > 1` the velocity update is the same
acceleration/deceleration/opposition logic as `smooth_movement_loop`
(with no speed factor, i.e. `speed_factor = 1`), and the position comes
from `smooth_elbow_movement`; otherwise velocity zeroes and `current_pw`
snaps to the target. -/
def yb_movement_tick (set : YbSettings) (active : Bool) (st : EsState) :
    EsState :=
  if active = false then st
  else
    let diff := st.target_pw - st.current_pw
    if 1 < |diff| then
      let v2 := es_velocity_update
        ⟨set.step_size, set.acceleration, set.deceleration, set.smoothing⟩
        1 diff st.velocity
      { current_pw := yb_smooth_elbow_movement set st.current_pw
          st.target_pw v2,
        target_pw := st.target_pw,
        velocity := v2 }
    else
      { current_pw := st.target_pw, target_pw := st.target_pw, velocity := 0 }

/-- A run of the elbow movement loop under a sequence of external inputs:
before each pass the input layer may assign a fresh `target_pw`, and the
servo may be active or not. -/
def yb_run (set : YbSettings) (inputs : List (ℚ × Bool)) (st : EsState) :
    EsState :=
  inputs.foldl
    (fun acc p => yb_movement_tick set p.2 { acc with target_pw := p.1 }) st

/-- The elbow state as `__init__` (lines 46-48) builds it:
`current_pw = target_pw = 1500` (the midpoint of `ELBOW_LIMITS`),
`velocity = 0`. -/
def yb_init : EsState := ⟨1500, 1500, 0⟩

/-! ## Helper lemmas -/

/-- In a trace `a ++ b` whose `a`-part satisfies `P` everywhere and whose
`b`-part satisfies it nowhere, every `P`-position comes strictly before
every non-`P`-position. -/
theorem append_all_before {α : Type} (P : α → Prop) (a b : List α)
    (ha : ∀ x ∈ a, P x) (hb : ∀ x ∈ b, ¬ P x) (i k : ℕ)
    (hi : i < (a ++ b).length) (hk : k < (a ++ b).length)
    (hPi : P ((a ++ b)[i])) (hPk : ¬ P ((a ++ b)[k])) :
    i < k := by
  by_contra hik
  push_neg at hik
  rcases lt_or_le i a.length with h1 | h1
  · have hk1 : k < a.length := lt_of_le_of_lt hik h1
    rw [List.getElem_append_left hk1] at hPk
    exact hPk (ha _ (List.getElem_mem hk1))
  · rw [List.getElem_append_right h1] at hPi
    exact hb _ (List.getElem_mem _) hPi

/-- `es_smooth_tick` never changes `target_pw`. -/
theorem es_tick_target (cfg : EsCfg) (s : EsSettings) (speed_factor : ℚ)
    (active : Bool) (st : EsState) :
    (es_smooth_tick cfg s speed_factor active st).target_pw = st.target_pw := by
  simp only [es_smooth_tick]
  repeat first
  | rfl
  | split

/-- A convex combination `c * sm + n * (1 - sm)` of two values of `[lo, hi]`
with `sm ∈ [0, 1]` stays in `[lo, hi]`. -/
theorem convex_blend_bounds (lo hi c n sm : ℚ) (h1 : lo ≤ c) (h2 : c ≤ hi)
    (h3 : lo ≤ n) (h4 : n ≤ hi) (h5 : 0 ≤ sm) (h6 : sm ≤ 1) :
    lo ≤ c * sm + n * (1 - sm) ∧ c * sm + n * (1 - sm) ≤ hi := by
  constructor <;> nlinarith

/-- One tick of `smooth_movement_loop` keeps `current_pw` inside the
servo's limits: the clamp bounds the proposed position, and the smoothing
blend is a convex combination of two in-range values. -/
theorem es_tick_bounds (cfg : EsCfg) (s : EsSettings) (speed_factor : ℚ)
    (active : Bool) (st : EsState) (hlim : cfg.min_pw ≤ cfg.max_pw)
    (hs0 : 0 ≤ s.smoothing) (hs1 : s.smoothing ≤ 1)
    (hc1 : (cfg.min_pw : ℚ) ≤ st.current_pw)
    (hc2 : st.current_pw ≤ (cfg.max_pw : ℚ))
    (ht1 : (cfg.min_pw : ℚ) ≤ st.target_pw)
    (ht2 : st.target_pw ≤ (cfg.max_pw : ℚ)) :
    (cfg.min_pw : ℚ) ≤ (es_smooth_tick cfg s speed_factor active st).current_pw ∧
      (es_smooth_tick cfg s speed_factor active st).current_pw ≤ (cfg.max_pw : ℚ) := by
  simp only [es_smooth_tick]
  split
  · exact ⟨hc1, hc2⟩
  · split
    · dsimp only
      exact convex_blend_bounds _ _ _ _ _ hc1 hc2 (le_max_left _ _)
        (max_le (by exact_mod_cast hlim) (min_le_right _ _)) hs0 hs1
    · dsimp only
      split
      · exact ⟨ht1, ht2⟩
      · exact ⟨hc1, hc2⟩

/-! ## Claim theorems -/

/-- C2: during one emergency-stop/reactivation cycle of
`commandImproved.py`, every joint's channel receives a disable write
(pulse width 0), and in the recorded write sequence every disable write
precedes every reactivation (non-zero) write — in particular all disable
writes precede the first reactivation write. The hypothesis states that
every joint's stored pulse width is positive (it always lies in
`[min_pw, max_pw]` with `min_pw ≥ 600`), so reactivation writes are the
non-zero writes of the trace. -/
theorem c2_disable_writes_precede_reactivation (s : CiState)
    (h : ∀ j, 0 < s.current_pw j) :
    (∀ j : CiServo, (ci_servo_pins j, (0 : ℤ)) ∈ (ci_emergency_cycle s).2) ∧
    ∀ (i k : ℕ) (hi : i < (ci_emergency_cycle s).2.length)
      (hk : k < (ci_emergency_cycle s).2.length),
      ((ci_emergency_cycle s).2[i]).2 = 0 →
      ((ci_emergency_cycle s).2[k]).2 ≠ 0 → i < k := by
  constructor
  · intro j
    apply List.mem_append_left
    exact List.mem_map_of_mem _ (by cases j <;> simp [ci_servo_list])
  · intro i k hi hk hPi hPk
    exact append_all_before (fun w => w.2 = 0)
      (ci_servo_list.map (fun j => (ci_servo_pins j, 0)))
      (ci_servo_list.map (fun j => (ci_servo_pins j, s.current_pw j)))
      (by
        intro x hx
        rcases List.mem_map.1 hx with ⟨j, _, rfl⟩
        rfl)
      (by
        intro x hx
        rcases List.mem_map.1 hx with ⟨j, _, rfl⟩
        exact (h j).ne')
      i k hi hk hPi hPk

/-- Witness for C2 at a concrete state: with every joint at 1500 μs, the
base joint's channel receives a disable write during the cycle. -/
theorem c2_witness_concrete :
    (ci_servo_pins CiServo.BASE, (0 : ℤ)) ∈
      (ci_emergency_cycle ⟨fun _ => 1500, []⟩).2 :=
  (c2_disable_writes_precede_reactivation ⟨fun _ => 1500, []⟩
    (fun _ => by norm_num)).1 CiServo.BASE

/-- C3: the reactivation pass that follows an emergency stop of
`commandImproved.py` writes to the hardware exactly each joint's pre-stop
`current_pw` (the stop pass does not modify `current_pw`), and it leaves
the stored `current_pw` unchanged. -/
theorem c3_reactivation_restores_prestop_pw (s : CiState) :
    (ci_reactivate_servos (ci_emergency_stop s).1).2
      = ci_servo_list.map (fun j => (ci_servo_pins j, s.current_pw j)) ∧
    (ci_reactivate_servos (ci_emergency_stop s).1).1.current_pw
      = s.current_pw :=
  ⟨rfl, rfl⟩

/-- C8 counterexample: no cited loop computes the combined period
`base_interval * (1.5 if load unstable else 1.0) / speed_factor`.
At unstable load and speed factor 2 the claimed formula gives 22.5 ms,
but `commandImproved.py`'s loop sleeps
`DEFAULT_INTERVAL * 1.5 = 45` ms — its interval (line 606) takes no speed
factor at all — and `test.py`'s loop sleeps
`SPEED_INTERVALS[BASE] / 2 = 15` ms — its interval (line 585) takes no
load state at all. Each code interval differs from the claimed formula at
this concrete input. -/
theorem c8_cex_no_combined_period :
    ci_tick_interval false = 45 ∧
    tp_effective_interval TpServo.BASE 2 = 15 ∧
    spec_tick_period ci_DEFAULT_INTERVAL true 2 = 45/2 ∧
    spec_tick_period (tp_speed_intervals TpServo.BASE) true 2 = 45/2 ∧
    ci_tick_interval false ≠ spec_tick_period ci_DEFAULT_INTERVAL true 2 ∧
    tp_effective_interval TpServo.BASE 2
      ≠ spec_tick_period (tp_speed_intervals TpServo.BASE) true 2 := by
  refine ⟨?_, ?_, ?_, ?_, ?_, ?_⟩ <;>
    norm_num [ci_tick_interval, tp_effective_interval, spec_tick_period,
      ci_DEFAULT_INTERVAL, tp_speed_intervals]

/-- C8 amended: neither cited loop combines both factors of the spec
formula `base_interval * (1.5 if load unstable else 1.0) / speed_factor`;
each realizes only its own factor and matches the formula with the absent
parameter at its neutral value: `commandImproved.py`'s per-tick interval
is `DEFAULT_INTERVAL * (1.5 if load unstable else 1.0)` and never depends
on a speed factor (the formula at `speed_factor = 1`), and `test.py`'s
per-tick interval is `SPEED_INTERVALS[servo] / speed_factor` and never
depends on a load state (the formula with the load reported stable). -/
theorem c8_tick_period_formula :
    (∀ power_stable : Bool,
      ci_tick_interval power_stable
        = spec_tick_period ci_DEFAULT_INTERVAL (!power_stable) 1) ∧
    ∀ (j : TpServo) (speed_factor : ℚ),
      tp_effective_interval j speed_factor
        = spec_tick_period (tp_speed_intervals j) false speed_factor := by
  constructor
  · intro st
    cases st <;> simp [ci_tick_interval, spec_tick_period, ci_DEFAULT_INTERVAL]
  · intro j sp
    simp [tp_effective_interval, spec_tick_period]

/-- C9: `button_release` of `commandImproved.py` on a button that is not a
pressed key of `button_states` is a no-op — it changes no state and issues
no hardware write — and hence applying it twice in a row equals applying
it once (the second application is always a no-op). -/
theorem c9_jog_end_noop_idempotent (s : CiState) (b : CiButton) :
    (b ∉ s.button_states.map Prod.fst →
      ci_button_release s b = (s, ([] : List CiWrite))) ∧
    ci_button_release (ci_button_release s b).1 b
      = ((ci_button_release s b).1, ([] : List CiWrite)) := by
  constructor
  · intro hb
    simp [ci_button_release, hb]
  · by_cases hb : b ∈ s.button_states.map Prod.fst
    · have hnot : b ∉
          ((s.button_states.filter (fun p => ¬(p.1 = b))).map Prod.fst) := by
        intro hmem
        rcases List.mem_map.1 hmem with ⟨p, hp, hfst⟩
        rcases List.mem_filter.1 hp with ⟨_, hpred⟩
        simp only [decide_eq_true_eq] at hpred
        exact hpred hfst
      simp [ci_button_release, hb, hnot]
    · simp [ci_button_release, hb]

/-- Witness for C9 at a concrete state: releasing a button that was never
pressed leaves the freshly initialized controller unchanged and writes
nothing. -/
theorem c9_witness_concrete :
    ci_button_release ⟨fun _ => 1500, []⟩ (CiServo.BASE, CiDir.CCW)
      = (⟨fun _ => 1500, []⟩, ([] : List CiWrite)) :=
  (c9_jog_end_noop_idempotent ⟨fun _ => 1500, []⟩ (CiServo.BASE, CiDir.CCW)).1
    (by simp)

/-- C10: `__init__` of `commandImproved.py` never initializes
`last_movement_time`, `movement_count` or `power_stable`, so the first
movement fails with `AttributeError` instead of updating the load
heuristic: an iteration that moved raises on `_check_movement_frequency`'s
first read (`self.last_movement_time`, line 144), and an iteration that
did not move still raises on the interval computation's read of
`self.power_stable` (line 606). -/
theorem c10_first_movement_attribute_error (now : ℚ) :
    ci_jog_tick_attr ci_init_load_attrs true now
      = Except.error ("AttributeError: " ++ "last_movement_time") ∧
    ci_jog_tick_attr ci_init_load_attrs false now
      = Except.error ("AttributeError: " ++ "power_stable") :=
  ⟨rfl, rfl⟩

/-- Once `power_stable` is `False`, no run of `_check_movement_frequency`
ever makes it `True` again: the reset branch touches only the counter. -/
theorem ci_load_unstable_persists (s : CiLoadState) (now : ℚ)
    (h : s.power_stable = false) :
    (ci_check_movement_frequency s now).power_stable = false := by
  simp only [ci_check_movement_frequency]
  split_ifs <;> simp_all

/-- C4 counterexample: from an unstable state (`power_stable = False`,
counter 5, one notification emitted), a dispatch with gap `dt = 1 s ≥
100 ms` leaves the flag unstable and emits no notification — the code's
reset branch only zeroes the counter, it never flips the flag back to
stable, contradicting the claim that such a gap restores stability and
notifies. -/
theorem c4_cex_no_recovery_to_stable :
    (1 : ℚ) - 0 ≥ 1/10 ∧
    (ci_check_movement_frequency ⟨0, 5, false, 1⟩ 1).power_stable = false ∧
    (ci_check_movement_frequency ⟨0, 5, false, 1⟩ 1).notices = 1 := by
  refine ⟨by norm_num, ?_, ?_⟩ <;>
    · simp only [ci_check_movement_frequency]
      norm_num

/-- C4 amended: on every dispatched command, a gap `dt < 100 ms` increments
the consecutive-rapid counter, the flag flips to unstable (with a
notification) exactly when the incremented counter exceeds 20 while the
flag was stable; a gap `dt ≥ 100 ms` resets the counter to zero but leaves
the stability flag (and the notification count) unchanged — in particular,
once unstable, the monitor stays unstable through any further sequence of
dispatches. -/
theorem c4_load_monitor_behavior (s : CiLoadState) (now : ℚ) :
    (now - s.last_movement_time < 1/10 →
      (ci_check_movement_frequency s now).movement_count
          = s.movement_count + 1 ∧
      (ci_check_movement_frequency s now).power_stable
          = (s.power_stable && decide (s.movement_count + 1 ≤ 20)) ∧
      (ci_check_movement_frequency s now).notices
          = s.notices + (if 20 < s.movement_count + 1 ∧ s.power_stable = true
                         then 1 else 0)) ∧
    (1/10 ≤ now - s.last_movement_time →
      (ci_check_movement_frequency s now).movement_count = 0 ∧
      (ci_check_movement_frequency s now).power_stable = s.power_stable ∧
      (ci_check_movement_frequency s now).notices = s.notices) ∧
    (s.power_stable = false →
      ∀ times : List ℚ, (ci_run_load s times).power_stable = false) := by
  refine ⟨?_, ?_, ?_⟩
  · intro h
    unfold ci_check_movement_frequency
    rw [if_pos h]
    by_cases hf : 20 < s.movement_count + 1 ∧ s.power_stable = true
    · rw [if_pos hf]
      cases hps : s.power_stable <;> simp_all <;> omega
    · rw [if_neg hf]
      cases hps : s.power_stable <;> simp_all
  · intro h
    unfold ci_check_movement_frequency
    rw [if_neg (by push_neg; exact h)]
    exact ⟨rfl, rfl, rfl⟩
  · intro h times
    induction times generalizing s with
    | nil => exact h
    | cons t ts ih =>
      exact ih _ (ci_load_unstable_persists s t h)

/-- Witness for C4 at a concrete input: a dispatch 50 ms after the previous
one increments the counter from 0 to 1. -/
theorem c4_witness_concrete :
    (ci_check_movement_frequency ⟨0, 0, true, 0⟩ (1/20)).movement_count = 1 :=
  ((c4_load_monitor_behavior ⟨0, 0, true, 0⟩ (1/20)).1 (by norm_num)).1

/-- `clampZ lo hi` lands in `[lo, hi]` whenever `lo ≤ hi`. -/
theorem clampZ_bounds (lo hi x : ℤ) (h : lo ≤ hi) :
    lo ≤ clampZ lo hi x ∧ clampZ lo hi x ≤ hi := by
  unfold clampZ
  omega

/-- C5 counterexample: in `commandImproved.py`'s preset ramp, an
out-of-range target (3000 on a joint with limits `(600, 2400)`, current
1500) is **not** clamped before the ramp steps are computed: the very
first ramp step from the raw target writes 1530, while the first step from
the clamped target would write 1518 — so the clamp does not happen before
step computation (each written value is only clamped at write time). -/
theorem c5_cex_unclamped_ramp_increment :
    clampZ 600 2400 3000 = 2400 ∧
    ci_preset_step 600 2400 1500 3000 0 = 1530 ∧
    ci_preset_step 600 2400 1500 (clampZ 600 2400 3000) 0 = 1518 ∧
    ci_preset_step 600 2400 1500 3000 0
      ≠ ci_preset_step 600 2400 1500 (clampZ 600 2400 3000) 0 := by
  refine ⟨by decide, ?_, ?_, ?_⟩ <;> with_unfolding_all decide

/-- C5 amended: in `test.py`'s preset path the target vector is clamped
before any ramp step is computed (the ramp of a raw target coincides with
the ramp of its clamped target), and every intermediate value of either
variant's ramp lies within `[min_pw, max_pw]` because each written value
is clamped; in `commandImproved.py`'s variant the increment is computed
from the raw target (see the counterexample), but the written values are
still in range. -/
theorem c5_preset_clamping (lo hi current target : ℤ) (N k : ℕ)
    (h : lo ≤ hi) :
    tp_preset_step lo hi current target N k
        = tp_preset_step lo hi current (clampZ lo hi target) N k ∧
    lo ≤ tp_preset_step lo hi current target N k ∧
    tp_preset_step lo hi current target N k ≤ hi ∧
    lo ≤ ci_preset_step lo hi current target k ∧
    ci_preset_step lo hi current target k ≤ hi := by
  have hadj : tp_adjusted_target lo hi (clampZ lo hi target)
      = tp_adjusted_target lo hi target := by
    unfold tp_adjusted_target clampZ
    split_ifs <;> omega
  refine ⟨?_, ?_, ?_, ?_, ?_⟩
  · simp only [tp_preset_step, hadj]
  · exact (clampZ_bounds _ _ _ h).1
  · exact (clampZ_bounds _ _ _ h).2
  · exact (clampZ_bounds _ _ _ h).1
  · exact (clampZ_bounds _ _ _ h).2

/-- Witness for C5 at a concrete input: with limits `(600, 2400)`, current
1500 and raw target 3000, the first `test.py` ramp step equals the one of
the pre-clamped target, and the first `commandImproved.py` step is within
limits. -/
theorem c5_witness_concrete :
    tp_preset_step 600 2400 1500 3000 90 0
        = tp_preset_step 600 2400 1500 (clampZ 600 2400 3000) 90 0 ∧
    (600 : ℤ) ≤ ci_preset_step 600 2400 1500 3000 0 :=
  ⟨(c5_preset_clamping 600 2400 1500 3000 90 0 (by norm_num)).1,
    (c5_preset_clamping 600 2400 1500 3000 90 0 (by norm_num)).2.2.2.1⟩

/-- C6 counterexample: in `controller&Gui.py`, a `JogStart` (button press)
processed during the reactivation window of an emergency stop — i.e. after
the disable pass returned and while the `root.after(500, reactivate_servos)`
callback is still pending — is **not** discarded: it marks the button
pressed, steps `current_pw` of the base joint from 1500 to 1520, and
issues the hardware write `(17, 1520)`. -/
theorem c6_cex_jog_applied_during_reactivation :
    (cg_emergency_stop cg_init).1.phase = CgPhase.reactivating ∧
    (cg_button_press (cg_emergency_stop cg_init).1
        (CgServo.BASE, CiDir.CCW)).2 = [(17, 1520)] ∧
    (cg_button_press (cg_emergency_stop cg_init).1
        (CgServo.BASE, CiDir.CCW)).1.current_pw CgServo.BASE = 1520 := by
  refine ⟨rfl, ?_, ?_⟩ <;> with_unfolding_all decide

/-- C6 amended: `emergency_stop` does cancel in-flight jogs by clearing
`button_states`, but no handler consults any stop phase: `button_press`
and `move_to_preset` behave identically whatever phase the controller is
in, so a `JogStart` or `PresetMove` received during the Stopping or
Reactivating window is applied normally (state updates and hardware
writes included) rather than discarded. -/
theorem c6_no_stop_phase_guard (s : CgState) (b : CgButton)
    (targets : CgServo → ℤ) (ph : CgPhase) :
    ((cg_button_press { s with phase := ph } b).1.current_pw
        = (cg_button_press { s with phase := CgPhase.running } b).1.current_pw) ∧
    ((cg_button_press { s with phase := ph } b).2
        = (cg_button_press { s with phase := CgPhase.running } b).2) ∧
    ((cg_move_to_preset { s with phase := ph } targets).1.current_pw
        = (cg_move_to_preset { s with phase := CgPhase.running } targets).1.current_pw) ∧
    ((cg_move_to_preset { s with phase := ph } targets).2
        = (cg_move_to_preset { s with phase := CgPhase.running } targets).2) ∧
    (cg_emergency_stop s).1.button_states = [] := by
  refine ⟨?_, ?_, rfl, rfl, rfl⟩ <;>
    · simp only [cg_button_press, cg_move_step]
      split <;> (try split) <;> rfl

/-- Running `smooth_movement_loop` over any input sequence whose targets
are within the servo's limits keeps `current_pw` within the limits,
starting from any in-range state. -/
theorem es_run_bounds (cfg : EsCfg) (s : EsSettings) (speed_factor : ℚ)
    (hlim : cfg.min_pw ≤ cfg.max_pw) (hs0 : 0 ≤ s.smoothing)
    (hs1 : s.smoothing ≤ 1) :
    ∀ (inputs : List (ℚ × Bool)) (st : EsState),
      (∀ p ∈ inputs, (cfg.min_pw : ℚ) ≤ p.1 ∧ p.1 ≤ (cfg.max_pw : ℚ)) →
      (cfg.min_pw : ℚ) ≤ st.current_pw → st.current_pw ≤ (cfg.max_pw : ℚ) →
      (cfg.min_pw : ℚ) ≤ (es_run cfg s speed_factor inputs st).current_pw ∧
        (es_run cfg s speed_factor inputs st).current_pw ≤ (cfg.max_pw : ℚ) := by
  intro inputs
  induction inputs with
  | nil =>
    intro st _ h1 h2
    exact ⟨h1, h2⟩
  | cons p ps ih =>
    intro st ht h1 h2
    have hp := ht p (List.mem_cons_self _ _)
    have hstep := es_tick_bounds cfg s speed_factor p.2
      { st with target_pw := p.1 } hlim hs0 hs1 h1 h2 hp.1 hp.2
    exact ih _ (fun q hq => ht q (List.mem_cons_of_mem _ hq)) hstep.1 hstep.2

/-- One pass of `movement_loop` keeps the elbow's `current_pw` inside
`ELBOW_LIMITS`: the moving branch ends in `smooth_elbow_movement`'s final
clamp, and the snap branch copies an in-range target. -/
theorem yb_tick_bounds (set : YbSettings) (active : Bool) (st : EsState)
    (hc1 : (500 : ℚ) ≤ st.current_pw) (hc2 : st.current_pw ≤ 2500)
    (ht1 : (500 : ℚ) ≤ st.target_pw) (ht2 : st.target_pw ≤ 2500) :
    (500 : ℚ) ≤ (yb_movement_tick set active st).current_pw ∧
      (yb_movement_tick set active st).current_pw ≤ 2500 := by
  simp only [yb_movement_tick]
  split
  · exact ⟨hc1, hc2⟩
  · split
    · dsimp only
      simp only [yb_smooth_elbow_movement, yb_ELBOW_LIMITS]
      constructor
      · push_cast
        exact le_max_left _ _
      · push_cast
        exact max_le (by norm_num) (min_le_right _ _)
    · exact ⟨ht1, ht2⟩

/-- Running `movement_loop` over any input sequence with in-range targets
keeps the elbow's `current_pw` inside `ELBOW_LIMITS`, from any in-range
state. -/
theorem yb_run_bounds (set : YbSettings) :
    ∀ (inputs : List (ℚ × Bool)) (st : EsState),
      (∀ p ∈ inputs, (500 : ℚ) ≤ p.1 ∧ p.1 ≤ 2500) →
      (500 : ℚ) ≤ st.current_pw → st.current_pw ≤ 2500 →
      (500 : ℚ) ≤ (yb_run set inputs st).current_pw ∧
        (yb_run set inputs st).current_pw ≤ 2500 := by
  intro inputs
  induction inputs with
  | nil =>
    intro st _ h1 h2
    exact ⟨h1, h2⟩
  | cons p ps ih =>
    intro st ht h1 h2
    have hp := ht p (List.mem_cons_self _ _)
    have hstep := yb_tick_bounds set p.2 { st with target_pw := p.1 }
      h1 h2 hp.1 hp.2
    exact ih _ (fun q hq => ht q (List.mem_cons_of_mem _ hq)) hstep.1 hstep.2

/-- C1: for every joint and every finite run of motion-loop ticks — each
tick preceded by an arbitrary (in-range, as enforced at every assignment
site) `target_pw` assignment and an arbitrary active/inactive status —
`current_pw` stays within `[min_pw, max_pw]` after every tick, starting
from the mid-range initial position. First part: the
`smooth_movement_loop` of `enhanceSens.py` for any joint configuration;
second part: the gravity-compensated elbow `movement_loop` of
`yes_but_no.py` (limits `(500, 2500)`, initial position 1500), for any
settings. -/
theorem c1_current_pw_within_limits :
    (∀ (cfg : EsCfg) (s : EsSettings) (speed_factor : ℚ),
      cfg.min_pw ≤ cfg.max_pw → 0 ≤ s.smoothing → s.smoothing ≤ 1 →
      ∀ inputs : List (ℚ × Bool),
        (∀ p ∈ inputs, (cfg.min_pw : ℚ) ≤ p.1 ∧ p.1 ≤ (cfg.max_pw : ℚ)) →
        ∀ n : ℕ,
          (cfg.min_pw : ℚ) ≤
              (es_run cfg s speed_factor (inputs.take n)
                (es_init cfg)).current_pw ∧
            (es_run cfg s speed_factor (inputs.take n)
                (es_init cfg)).current_pw ≤ (cfg.max_pw : ℚ)) ∧
    (∀ (set : YbSettings) (inputs : List (ℚ × Bool)),
      (∀ p ∈ inputs, (500 : ℚ) ≤ p.1 ∧ p.1 ≤ 2500) →
      ∀ n : ℕ,
        (500 : ℚ) ≤ (yb_run set (inputs.take n) yb_init).current_pw ∧
          (yb_run set (inputs.take n) yb_init).current_pw ≤ 2500) := by
  constructor
  · intro cfg s speed_factor hlim hs0 hs1 inputs ht n
    apply es_run_bounds cfg s speed_factor hlim hs0 hs1
    · exact fun p hp => ht p (List.take_subset n inputs hp)
    · show (cfg.min_pw : ℚ) ≤ ((es_middle cfg : ℤ) : ℚ)
      exact_mod_cast (by unfold es_middle; omega : cfg.min_pw ≤ es_middle cfg)
    · show ((es_middle cfg : ℤ) : ℚ) ≤ (cfg.max_pw : ℚ)
      exact_mod_cast (by unfold es_middle; omega : es_middle cfg ≤ cfg.max_pw)
  · intro set inputs ht n
    apply yb_run_bounds set
    · exact fun p hp => ht p (List.take_subset n inputs hp)
    · norm_num [yb_init]
    · norm_num [yb_init]

/-- Witness for C1 at concrete runs: the `enhanceSens.py` base joint
(limits `(600, 2400)`, default settings, speed factor 1) jogged toward
1800 for three ticks stays within its limits, and the `yes_but_no.py`
elbow (default settings) driven toward 2000 for two passes stays within
`(500, 2500)`. -/
theorem c1_witness_concrete :
    ((600 : ℚ) ≤ (es_run ⟨600, 2400⟩ es_default_settings 1
        ([(1800, true), (1800, true), (1800, true)].take 3)
        (es_init ⟨600, 2400⟩)).current_pw ∧
      (es_run ⟨600, 2400⟩ es_default_settings 1
        ([(1800, true), (1800, true), (1800, true)].take 3)
        (es_init ⟨600, 2400⟩)).current_pw ≤ (2400 : ℚ)) ∧
    ((500 : ℚ) ≤ (yb_run yb_default_settings
        ([(2000, true), (2000, true)].take 2) yb_init).current_pw ∧
      (yb_run yb_default_settings
        ([(2000, true), (2000, true)].take 2) yb_init).current_pw ≤ 2500) := by
  constructor
  · have h := c1_current_pw_within_limits.1 ⟨600, 2400⟩ es_default_settings 1
      (by norm_num) (by norm_num [es_default_settings])
      (by norm_num [es_default_settings])
      [(1800, true), (1800, true), (1800, true)]
      (by
        intro p hp
        simp only [List.mem_cons, List.not_mem_nil, or_false] at hp
        rcases hp with h | h | h <;> rw [h] <;> norm_num) 3
    exact_mod_cast h
  · exact c1_current_pw_within_limits.2 yb_default_settings
      [(2000, true), (2000, true)]
      (by
        intro p hp
        simp only [List.mem_cons, List.not_mem_nil, or_false] at hp
        rcases hp with h | h <;> rw [h] <;> norm_num) 2

set_option maxRecDepth 100000 in
/-- Ticks 0-40 of the §8.7 scenario, computed exactly. -/
theorem c7_seg1 : c7_tick^[40] ⟨1500, 1800, 0⟩ = ⟨1576, 1800, 10⟩ := by
  with_unfolding_all rfl

set_option maxRecDepth 100000 in
/-- Ticks 40-80 of the §8.7 scenario, computed exactly. -/
theorem c7_seg2 : c7_tick^[40] ⟨1576, 1800, 10⟩ = ⟨1656, 1800, 10⟩ := by
  with_unfolding_all rfl

set_option maxRecDepth 100000 in
/-- Ticks 80-120 of the §8.7 scenario, computed exactly. -/
theorem c7_seg3 : c7_tick^[40] ⟨1656, 1800, 10⟩ = ⟨1736, 1800, 10⟩ := by
  with_unfolding_all rfl

set_option maxRecDepth 100000 in
/-- Ticks 120-160 of the §8.7 scenario, computed exactly. -/
theorem c7_seg4 : c7_tick^[40] ⟨1736, 1800, 10⟩
    = ⟨mkRat 89794757 50000, 1800, mkRat 16807 10000⟩ := by
  with_unfolding_all rfl

set_option maxRecDepth 100000 in
/-- Ticks 160-176 of the §8.7 scenario, computed exactly. -/
theorem c7_seg5 : c7_tick^[16] ⟨mkRat 89794757 50000, 1800, mkRat 16807 10000⟩
    = ⟨mkRat 224876361111 125000000, 1800, mkRat 40353607 100000000⟩ := by
  with_unfolding_all rfl

/-- C7: the §8.7 scenario joint (limits `(600, 2400)`, `step_size = 10`,
`current_pw = 1500`, `target_pw = 1800`): the velocity-eased loop reaches
within 1 μs of 1800 after 176 ticks — a tick count bounded by twice the
initial 300 μs distance — and `current_pw` never leaves `[600, 2400]`
(in particular never exceeds 2400) at any tick. -/
theorem c7_converges_within_bounds :
    ∃ N : ℕ, N ≤ 2 * 300 ∧ |(c7_state N).current_pw - 1800| ≤ 1 ∧
      ∀ k : ℕ, (600 : ℚ) ≤ (c7_state k).current_pw ∧
        (c7_state k).current_pw ≤ 2400 := by
  refine ⟨176, by norm_num, ?_, ?_⟩
  · have e : c7_state 176
        = ⟨mkRat 224876361111 125000000, 1800, mkRat 40353607 100000000⟩ := by
      show c7_tick^[176] ⟨1500, 1800, 0⟩ = _
      rw [show (176 : ℕ) = 16 + (40 + (40 + (40 + 40))) from rfl,
        Function.iterate_add_apply, Function.iterate_add_apply,
        Function.iterate_add_apply, Function.iterate_add_apply,
        c7_seg1, c7_seg2, c7_seg3, c7_seg4, c7_seg5]
    rw [e]
    with_unfolding_all decide
  · have hlo : (c7_cfg.min_pw : ℚ) = 600 := by norm_num [c7_cfg]
    have hhi : (c7_cfg.max_pw : ℚ) = 2400 := by norm_num [c7_cfg]
    have key : ∀ k : ℕ,
        ((600 : ℚ) ≤ (c7_state k).current_pw ∧
          (c7_state k).current_pw ≤ 2400) ∧
        (c7_state k).target_pw = 1800 := by
      intro k
      induction k with
      | zero =>
        exact ⟨⟨by norm_num [c7_state], by norm_num [c7_state]⟩, rfl⟩
      | succ k ih =>
        have hstep : c7_state (k + 1)
            = es_smooth_tick c7_cfg c7_settings 1 true (c7_state k) :=
          Function.iterate_succ_apply' _ _ _
        have hb := es_tick_bounds c7_cfg c7_settings 1 true (c7_state k)
          (by norm_num [c7_cfg]) (by norm_num [c7_settings])
          (by norm_num [c7_settings])
          (by rw [hlo]; exact ih.1.1) (by rw [hhi]; exact ih.1.2)
          (by rw [hlo, ih.2]; norm_num) (by rw [hhi, ih.2]; norm_num)
        refine ⟨⟨?_, ?_⟩, ?_⟩
        · rw [hstep, ← hlo]; exact hb.1
        · rw [hstep, ← hhi]; exact hb.2
        · rw [hstep, es_tick_target, ih.2]
    exact fun k => (key k).1
